import Mathlib

/-!
Shallow embedding of the recording-session lifecycle and
transcription-finalization pipeline of the Kotoba desktop app
(`src/apps/desktop-tauri/src-tauri/src/commands/recording.rs` together with
the state types of `src/apps/desktop-tauri/src-tauri/src/state.rs`).

The Tauri command handlers mutate a mutex-protected `AppState`; here each
command is a pure function from the pre-state to the triple
`(post-state, returned Result, emitted lifecycle events)`.  The three
external collaborators invoked by `finalize_session` — the speech engine
(`transcribe_audio_file`, a whisper-rs stub in the source), the formatting
service (`format_with_ollama`, an HTTP call) and the persistence gateway
(`Database::create_transcription`, SQLite) — are modelled by an environment
record carrying the outcome each call would produce, exactly at the
`Result` boundary the orchestrator consumes.
-/

namespace Kotoba

/-- Mirror of `RecordingState` in `state.rs`: the three lifecycle states. -/
inductive RecordingState where
  | idle
  | recording
  | processing
deriving DecidableEq, Repr

/-- Mirror of `FormatterConfig` in `state.rs`. -/
structure FormatterConfig where
  enabled : Bool
  model_id : Option String
  fallback_model_id : Option String
deriving DecidableEq, Repr

/-- Mirror of `OllamaConfig` in `state.rs`. -/
structure OllamaConfig where
  url : String
deriving DecidableEq, Repr

/-- Mirror of `ModelProvidersConfig` in `state.rs`. -/
structure ModelProvidersConfig where
  ollama : Option OllamaConfig
  default_speech_model : Option String
  default_language_model : Option String
deriving DecidableEq, Repr

/-- Mirror of `DictationSettings` in `state.rs`. -/
structure DictationSettings where
  auto_detect_enabled : Bool
  selected_language : String
deriving DecidableEq, Repr

/-- Mirror of `AppSettingsData` in `state.rs`, restricted to the three
settings groups the recording commands consult (`formatter_config`,
`model_providers_config`, `dictation`); the remaining groups (ui,
shortcuts, preferences, onboarding, telemetry, ...) are never read by any
operation modelled here. -/
structure AppSettingsData where
  formatter_config : Option FormatterConfig
  model_providers_config : Option ModelProvidersConfig
  dictation : Option DictationSettings
deriving DecidableEq, Repr

/-- Mirror of `AppState` in `state.rs` (the Session Store plus the settings
snapshot source).  The `db: Database` handle is an external collaborator;
its `create_transcription` outcome is supplied by `FinalizeEnv`. -/
structure AppState where
  recording_state : RecordingState
  active_session_id : Option String
  settings : AppSettingsData
deriving DecidableEq, Repr

/-- Mirror of `AppState::new` in `state.rs`: fresh stores start Idle with no
session id; `settings` stands for `db.load_settings().unwrap_or_default()`. -/
def AppState.new (settings : AppSettingsData) : AppState :=
  { recording_state := .idle
    active_session_id := none
    settings := settings }

/-- Mirror of `RecordingStateUpdate` in `recording.rs`: the payload returned
by the state-changing commands and carried by state-change events. -/
structure RecordingStateUpdate where
  state : RecordingState
  session_id : Option String
deriving DecidableEq, Repr

/-- Lifecycle events emitted via `app.emit` in `recording.rs`:
`recording-state-changed` carries a `RecordingStateUpdate`,
`transcription-completed` carries the final text. -/
inductive AppEvent where
  | recordingStateChanged (state : RecordingState) (session_id : Option String)
  | transcriptionCompleted (text : String)
deriving DecidableEq, Repr

/-- Mirror of `ProcessChunkOptions` in `recording.rs`. -/
structure ProcessChunkOptions where
  session_id : String
  audio_chunk : List Float
  recording_started_at : Option Float

/-- Mirror of `FinalizeSessionOptions` in `recording.rs`. -/
structure FinalizeSessionOptions where
  session_id : String
  audio_file_path : Option String
  recording_started_at : Option Float
  recording_stopped_at : Option Float

/-- Outcomes of the three external collaborators during one
`finalize_session` call, at the `Result` boundary the orchestrator sees:
`speechOutcome` is what `transcribe_audio_file` returns when invoked
(the source stubs whisper-rs behind this call), `formatOutcome` is what
`format_with_ollama` returns when invoked, and `persistOutcome` is what
`db.create_transcription` returns when invoked. -/
structure FinalizeEnv where
  speechOutcome : Except String String
  formatOutcome : Except String String
  persistOutcome : Except String Unit

/-- Argument tuple of the `db.create_transcription` call issued by
`finalize_session` (`db.rs` lines 224-233); `meta_session_id` and
`meta_source` record the fields of the serialized `meta` JSON object. -/
structure TranscriptionArgs where
  text : String
  language : Option String
  audio_file : Option String
  duration : Option Int
  speech_model : Option String
  formatting_model : Option String
  meta_session_id : String
  meta_source : String
deriving DecidableEq, Repr

/-- Observable side effects of one `finalize_session` call:
whether `format_with_ollama` was invoked, the argument of the
`create_transcription` call if one was issued, and the emitted events. -/
structure FinalizeTrace where
  formatter_invoked : Bool
  db_create : Option TranscriptionArgs
  events : List AppEvent
deriving DecidableEq, Repr

/-- Mirror of `signal_start` in `recording.rs` (lines 36-60); `fresh_id`
stands for the freshly generated `Uuid::new_v4().to_string()`. -/
def signal_start (st : AppState) (fresh_id : String) :
    AppState × Except String RecordingStateUpdate × List AppEvent :=
  if st.recording_state ≠ .idle then
    (st, .error "Recording already in progress", [])
  else
    let st' := { st with
      recording_state := .recording
      active_session_id := some fresh_id }
    let update : RecordingStateUpdate :=
      { state := .recording, session_id := some fresh_id }
    (st', .ok update, [.recordingStateChanged .recording (some fresh_id)])

/-- Mirror of `signal_stop` in `recording.rs` (lines 64-84): the only guard
in the source is `recording_state == Idle`. -/
def signal_stop (st : AppState) :
    AppState × Except String RecordingStateUpdate × List AppEvent :=
  if st.recording_state = .idle then
    (st, .error "No recording in progress", [])
  else
    let st' := { st with recording_state := .processing }
    let update : RecordingStateUpdate :=
      { state := .processing, session_id := st'.active_session_id }
    (st', .ok update, [.recordingStateChanged .processing st'.active_session_id])

/-- Mirror of `get_recording_state` in `recording.rs` (lines 87-94). -/
def get_recording_state (st : AppState) : Except String RecordingStateUpdate :=
  .ok { state := st.recording_state, session_id := st.active_session_id }

/-- Mirror of `process_audio_chunk` in `recording.rs` (lines 99-108): a pure
acknowledgement that touches no state and returns an empty partial result. -/
def process_audio_chunk (st : AppState) (_options : ProcessChunkOptions) :
    AppState × Except String String × List AppEvent :=
  (st, .ok "", [])

/-- Mirror of `cancel_session` in `recording.rs` (lines 216-230):
unconditionally resets the store and emits one state-change event; it
invokes no adapter (its definition takes no `FinalizeEnv`). -/
def cancel_session (st : AppState) :
    AppState × Except String Unit × List AppEvent :=
  let st' := { st with
    recording_state := .idle
    active_session_id := none }
  (st', .ok (), [.recordingStateChanged .idle none])

/-- Mirror of the language resolution of the settings snapshot taken at the
top of `finalize_session` (`recording.rs` lines 121-131). -/
def resolveLanguage (s : AppSettingsData) : Option String :=
  s.dictation.bind fun d =>
    if d.auto_detect_enabled then none else some d.selected_language

/-- Mirror of the `ollama_url` resolution of the settings snapshot taken at
the top of `finalize_session` (`recording.rs` lines 133-138). -/
def ollamaUrl (s : AppSettingsData) : Option String :=
  (s.model_providers_config.bind fun c => c.ollama).map fun o => o.url

/-- Mirror of the transcription step of `finalize_session` (`recording.rs`
lines 145-150): the speech engine runs only when an audio file path is
present; otherwise the raw text is the empty string. -/
def rawTranscription (options : FinalizeSessionOptions) (env : FinalizeEnv) :
    Except String String :=
  if options.audio_file_path.isSome then env.speechOutcome else .ok ""

/-- Mirror of the optional-formatting block of `finalize_session`
(`recording.rs` lines 152-175), returning the chosen final text and whether
`format_with_ollama` was invoked.  Rust's `!raw_text.is_empty()` is the
negation of equality with the empty string; a formatting failure is
collapsed by `unwrap_or(raw_text.clone())`. -/
def chooseFinalText (formatter_config : Option FormatterConfig)
    (ollama_url : Option String) (formatOutcome : Except String String)
    (raw_text : String) : String × Bool :=
  if raw_text = "" then
    (raw_text, false)
  else
    match formatter_config with
    | none => (raw_text, false)
    | some fc =>
      if fc.enabled then
        match ollama_url with
        | none => (raw_text, false)
        | some _url =>
          match fc.model_id with
          | none => (raw_text, false)
          | some _model_id =>
            match formatOutcome with
            | .ok formatted => (formatted, true)
            | .error _ => (raw_text, true)
      else (raw_text, false)

/-- Mirror of `finalize_session` in `recording.rs` (lines 113-213):
settings snapshot, speech engine (its failure propagates via `?` before any
state change), optional formatting, `create_transcription` (its failure
propagates via `?` before any state change), then the unconditional
transition to Idle and the two events. -/
def finalize_session (st : AppState) (options : FinalizeSessionOptions)
    (env : FinalizeEnv) : AppState × Except String String × FinalizeTrace :=
  let language := resolveLanguage st.settings
  let formatter_config := st.settings.formatter_config
  let ollama_url := ollamaUrl st.settings
  match rawTranscription options env with
  | .error e => (st, .error e, ⟨false, none, []⟩)
  | .ok raw_text =>
    let ft := chooseFinalText formatter_config ollama_url env.formatOutcome raw_text
    let record : TranscriptionArgs :=
      { text := ft.1
        language := some (language.getD "ja")
        audio_file := options.audio_file_path
        duration := none
        speech_model := some "whisper-local"
        formatting_model := none
        meta_session_id := options.session_id
        meta_source := "microphone" }
    match env.persistOutcome with
    | .error e => (st, .error e, ⟨ft.2, some record, []⟩)
    | .ok _ =>
      let st' := { st with
        recording_state := .idle
        active_session_id := none }
      (st', .ok ft.1,
        ⟨ft.2, some record,
         [.recordingStateChanged .idle none, .transcriptionCompleted ft.1]⟩)

/-- Session-orchestrator operations, for reasoning about arbitrary call
sequences: `start` carries the freshly generated UUID, `finalize` carries
its options and the external collaborators' outcomes for that call. -/
inductive Op where
  | start (fresh_id : String)
  | stop
  | chunk (options : ProcessChunkOptions)
  | finalize (options : FinalizeSessionOptions) (env : FinalizeEnv)
  | cancel

/-- State reached by one orchestrator operation. -/
def applyOp (st : AppState) : Op → AppState
  | .start fresh_id => (signal_start st fresh_id).1
  | .stop => (signal_stop st).1
  | .chunk options => (process_audio_chunk st options).1
  | .finalize options env => (finalize_session st options env).1
  | .cancel => (cancel_session st).1

/-- State reached by a sequence of orchestrator operations. -/
def runOps (st : AppState) (ops : List Op) : AppState :=
  ops.foldl applyOp st

/-- Session Store invariant: the session id is present iff the state is not
Idle (the `state` field ranges over the three defined values by the type of
`RecordingState`, and the store holds a single `Option String`, so at most
one session id is ever live). -/
def SessionInvariant (st : AppState) : Prop :=
  st.active_session_id.isSome = true ↔ st.recording_state ≠ .idle

/-- Record passed to `create_transcription` by `finalize_session`, given the
settings snapshot, options and chosen final text. -/
def finalizeRecord (st : AppState) (options : FinalizeSessionOptions)
    (final_text : String) : TranscriptionArgs :=
  { text := final_text
    language := some ((resolveLanguage st.settings).getD "ja")
    audio_file := options.audio_file_path
    duration := none
    speech_model := some "whisper-local"
    formatting_model := none
    meta_session_id := options.session_id
    meta_source := "microphone" }

lemma finalize_session_speech_error (st : AppState)
    (options : FinalizeSessionOptions) (env : FinalizeEnv) (e : String)
    (hraw : rawTranscription options env = .error e) :
    finalize_session st options env = (st, .error e, ⟨false, none, []⟩) := by
  simp only [finalize_session, hraw]

lemma finalize_session_persist_error (st : AppState)
    (options : FinalizeSessionOptions) (env : FinalizeEnv) (raw e : String)
    (hraw : rawTranscription options env = .ok raw)
    (hper : env.persistOutcome = .error e) :
    finalize_session st options env =
      (st, .error e,
        ⟨(chooseFinalText st.settings.formatter_config (ollamaUrl st.settings)
            env.formatOutcome raw).2,
         some (finalizeRecord st options
           (chooseFinalText st.settings.formatter_config (ollamaUrl st.settings)
             env.formatOutcome raw).1),
         []⟩) := by
  simp only [finalize_session, hraw, hper, finalizeRecord]

lemma finalize_session_ok (st : AppState) (options : FinalizeSessionOptions)
    (env : FinalizeEnv) (raw : String)
    (hraw : rawTranscription options env = .ok raw)
    (hper : env.persistOutcome = .ok ()) :
    finalize_session st options env =
      (⟨.idle, none, st.settings⟩,
       .ok (chooseFinalText st.settings.formatter_config (ollamaUrl st.settings)
          env.formatOutcome raw).1,
       ⟨(chooseFinalText st.settings.formatter_config (ollamaUrl st.settings)
           env.formatOutcome raw).2,
        some (finalizeRecord st options
          (chooseFinalText st.settings.formatter_config (ollamaUrl st.settings)
            env.formatOutcome raw).1),
        [.recordingStateChanged .idle none,
         .transcriptionCompleted
           (chooseFinalText st.settings.formatter_config (ollamaUrl st.settings)
             env.formatOutcome raw).1]⟩) := by
  simp only [finalize_session, hraw, hper, finalizeRecord]

lemma applyOp_invariant (st : AppState) (op : Op)
    (h : SessionInvariant st) : SessionInvariant (applyOp st op) := by
  cases op with
  | start fresh_id =>
    by_cases hs : st.recording_state = .idle
    · simp [applyOp, signal_start, hs, SessionInvariant]
    · simpa [applyOp, signal_start, hs, SessionInvariant] using h
  | stop =>
    by_cases hs : st.recording_state = .idle
    · simpa [applyOp, signal_stop, hs, SessionInvariant] using h
    · simp [applyOp, signal_stop, hs, SessionInvariant]
      exact h.mpr hs
  | chunk options =>
    simpa [applyOp, process_audio_chunk, SessionInvariant] using h
  | cancel =>
    simp [applyOp, cancel_session, SessionInvariant]
  | finalize options env =>
    rcases hraw : rawTranscription options env with e | raw
    · simpa [applyOp, finalize_session_speech_error st options env e hraw] using h
    · rcases hper : env.persistOutcome with e | u
      · simpa [applyOp,
          finalize_session_persist_error st options env raw e hraw hper] using h
      · cases u
        simp [applyOp, finalize_session_ok st options env raw hraw hper,
          SessionInvariant]

lemma runOps_invariant (st : AppState) (ops : List Op)
    (h : SessionInvariant st) : SessionInvariant (runOps st ops) := by
  induction ops generalizing st with
  | nil => simpa [runOps] using h
  | cons op ops ih =>
    simpa [runOps, List.foldl_cons] using
      ih (applyOp st op) (applyOp_invariant st op h)

/-- Claim C1, counterexample: from Processing with a speech-engine failure,
`finalize_session` returns the error before the terminal transition, so the
store stays Processing with its session id — it does not end Idle with
`session_id = None` as the claim states. -/
theorem finalize_speech_failure_leaves_processing_cex :
    (finalize_session
      ⟨.processing, some "s1", ⟨none, none, none⟩⟩
      ⟨"s1", some "a.wav", none, none⟩
      ⟨.error "speech engine unavailable", .ok "formatted", .ok ()⟩).1
      = ⟨.processing, some "s1", ⟨none, none, none⟩⟩ ∧
    (finalize_session
      ⟨.processing, some "s1", ⟨none, none, none⟩⟩
      ⟨"s1", some "a.wav", none, none⟩
      ⟨.error "speech engine unavailable", .ok "formatted", .ok ()⟩).2.1
      = .error "speech engine unavailable" :=
  ⟨rfl, rfl⟩

/-- Claim C1 (amended): starting from Processing, for every formatting
outcome, `finalize_session` ends Idle with `session_id = None` whenever the
speech-engine step succeeds and persistence succeeds; on a speech-engine
failure it instead returns that error and leaves the store unchanged (still
Processing). -/
theorem finalize_terminal_state_amended (st : AppState)
    (options : FinalizeSessionOptions) (env : FinalizeEnv)
    (_hst : st.recording_state = .processing) :
    (∀ raw, rawTranscription options env = .ok raw →
      env.persistOutcome = .ok () →
      (finalize_session st options env).1.recording_state = .idle ∧
      (finalize_session st options env).1.active_session_id = none) ∧
    (∀ e, rawTranscription options env = .error e →
      (finalize_session st options env).1 = st ∧
      (finalize_session st options env).2.1 = .error e) := by
  constructor
  · intro raw hraw hper
    rw [finalize_session_ok st options env raw hraw hper]
    exact ⟨rfl, rfl⟩
  · intro e hraw
    rw [finalize_session_speech_error st options env e hraw]
    exact ⟨rfl, rfl⟩

/-- Witness for the amended claim C1, at a concrete Processing store with a
succeeding speech engine, failing formatter and succeeding persistence. -/
theorem finalize_terminal_state_amended_witness :
    (finalize_session ⟨.processing, some "s1", ⟨none, none, none⟩⟩
      ⟨"s1", some "a.wav", none, none⟩
      ⟨.ok "hello", .error "fmt down", .ok ()⟩).1.recording_state = .idle ∧
    (finalize_session ⟨.processing, some "s1", ⟨none, none, none⟩⟩
      ⟨"s1", some "a.wav", none, none⟩
      ⟨.ok "hello", .error "fmt down", .ok ()⟩).1.active_session_id = none :=
  (finalize_terminal_state_amended _ _ _ rfl).1 "hello" rfl rfl

/-- Claim C2, counterexample: from Processing, `signal_stop` does not fail
with NotActive — the only guard in the source is against Idle — it succeeds,
leaves the store unchanged and re-emits `(Processing, session_id)`. -/
theorem stop_from_processing_succeeds_cex :
    signal_stop ⟨.processing, some "s1", ⟨none, none, none⟩⟩ =
      (⟨.processing, some "s1", ⟨none, none, none⟩⟩,
       .ok ⟨.processing, some "s1"⟩,
       [.recordingStateChanged .processing (some "s1")]) :=
  rfl

/-- Claim C2 (amended): if the store's state is Processing, `signal_stop`
does not fail — it succeeds, leaves the store's state and session id
unchanged, and returns `(Processing, session_id)`. -/
theorem stop_from_processing_amended (st : AppState)
    (h : st.recording_state = .processing) :
    (signal_stop st).1 = st ∧
    (signal_stop st).2.1 = .ok ⟨.processing, st.active_session_id⟩ := by
  obtain ⟨rs, sid, s⟩ := st
  cases h
  exact ⟨rfl, rfl⟩

/-- Witness for the amended claim C2 at a concrete Processing store. -/
theorem stop_from_processing_amended_witness :
    (signal_stop ⟨.processing, some "s9", ⟨none, none, none⟩⟩).1 =
      ⟨.processing, some "s9", ⟨none, none, none⟩⟩ ∧
    (signal_stop ⟨.processing, some "s9", ⟨none, none, none⟩⟩).2.1 =
      .ok ⟨.processing, some "s9"⟩ :=
  stop_from_processing_amended _ rfl

/-- Claim C3: for every settings object and every sequence of orchestrator
operations run from the initial store (`AppState::new`), the Session Store
satisfies the invariant that `session_id` is Some iff the state is not Idle;
the state ranges over the three defined values by the type of
`RecordingState`, and the store's single `Option String` field means at
most one session id is live at any time. -/
theorem session_store_invariant_all_runs (settings : AppSettingsData)
    (ops : List Op) : SessionInvariant (runOps (AppState.new settings) ops) :=
  runOps_invariant _ ops (by simp [AppState.new, SessionInvariant])

/-- Claim C6: `signal_start` fails with AlreadyActive and leaves the store
untouched whenever the state is Recording or Processing (i.e. not Idle),
and from Idle it succeeds, moves to Recording and records the freshly
generated session identifier. -/
theorem start_transition_spec (st : AppState) (fresh_id : String) :
    (st.recording_state ≠ .idle →
      signal_start st fresh_id =
        (st, .error "Recording already in progress", [])) ∧
    (st.recording_state = .idle →
      signal_start st fresh_id =
        ({st with recording_state := .recording,
                  active_session_id := some fresh_id},
         .ok ⟨.recording, some fresh_id⟩,
         [.recordingStateChanged .recording (some fresh_id)])) := by
  constructor
  · intro h
    simp [signal_start, h]
  · intro h
    simp [signal_start, h]

/-- Witness for claim C6: starting from a concrete Idle store succeeds and
records the fresh identifier. -/
theorem start_transition_spec_witness :
    signal_start ⟨.idle, none, ⟨none, none, none⟩⟩ "u1" =
      (⟨.recording, some "u1", ⟨none, none, none⟩⟩,
       .ok ⟨.recording, some "u1"⟩,
       [.recordingStateChanged .recording (some "u1")]) :=
  (start_transition_spec _ "u1").2 rfl

/-- Claim C7: `cancel_session` succeeds from every state, resets the store
to Idle with a cleared session id while emitting exactly one state-change
event and invoking no adapter (its definition consumes no collaborator
outcome), and it is idempotent: a second cancel from the resulting Idle
store succeeds with no state change. -/
theorem cancel_idempotent_resets (st : AppState) :
    cancel_session st =
      ({st with recording_state := .idle, active_session_id := none},
       .ok (), [.recordingStateChanged .idle none]) ∧
    (cancel_session (cancel_session st).1).1 = (cancel_session st).1 ∧
    (cancel_session (cancel_session st).1).2.1 = .ok () :=
  ⟨rfl, rfl, rfl⟩

lemma chooseFinalText_skip (fc? : Option FormatterConfig)
    (url? : Option String) (fo : Except String String) (raw : String)
    (h : raw = "" ∨ fc? = none ∨
      (∃ fc, fc? = some fc ∧ (fc.enabled = false ∨ fc.model_id = none)) ∨
      url? = none) :
    chooseFinalText fc? url? fo raw = (raw, false) := by
  by_cases hr : raw = ""
  · simp [chooseFinalText, hr]
  · rcases h with h | h | ⟨fc, hfc, h⟩ | h
    · exact absurd h hr
    · simp [chooseFinalText, hr, h]
    · subst hfc
      rcases h with h | h
      · simp [chooseFinalText, hr, h]
      · cases hu : url? with
        | none => by_cases he : fc.enabled <;> simp [chooseFinalText, hr, he]
        | some u => by_cases he : fc.enabled <;> simp [chooseFinalText, hr, he, h]
    · subst h
      cases fc? with
      | none => simp [chooseFinalText, hr]
      | some fc => by_cases he : fc.enabled <;> simp [chooseFinalText, hr, he]

/-- Claim C4: with formatting enabled, a model id and an Ollama endpoint
configured, a non-empty raw transcription and a failing formatter,
`finalize_session` still succeeds (persistence succeeding), returns exactly
the raw text, and the persisted record carries that raw text; the
formatting error never reaches the caller. -/
theorem formatting_failure_falls_back_to_raw (st : AppState)
    (options : FinalizeSessionOptions) (env : FinalizeEnv)
    (fc : FormatterConfig) (mid url raw e : String)
    (hfc : st.settings.formatter_config = some fc)
    (hen : fc.enabled = true)
    (hmid : fc.model_id = some mid)
    (hurl : ollamaUrl st.settings = some url)
    (hraw : rawTranscription options env = .ok raw)
    (hne : raw ≠ "")
    (hfmt : env.formatOutcome = .error e)
    (hper : env.persistOutcome = .ok ()) :
    (finalize_session st options env).2.1 = .ok raw ∧
    ((finalize_session st options env).2.2.db_create.map fun r => r.text) =
      some raw := by
  have hchoose : chooseFinalText st.settings.formatter_config
      (ollamaUrl st.settings) env.formatOutcome raw = (raw, true) := by
    simp [chooseFinalText, hfc, hen, hmid, hurl, hfmt, hne]
  rw [finalize_session_ok st options env raw hraw hper]
  simp [hchoose, finalizeRecord]

/-- Witness for claim C4 at a concrete store with formatting fully
configured, a failing formatter and succeeding speech and persistence. -/
theorem formatting_failure_falls_back_to_raw_witness :
    (finalize_session
      ⟨.processing, some "s1",
        ⟨some ⟨true, some "m", none⟩,
         some ⟨some ⟨"http://localhost:11434"⟩, none, none⟩, none⟩⟩
      ⟨"s1", some "a.wav", none, none⟩
      ⟨.ok "hello", .error "down", .ok ()⟩).2.1 = .ok "hello" ∧
    ((finalize_session
      ⟨.processing, some "s1",
        ⟨some ⟨true, some "m", none⟩,
         some ⟨some ⟨"http://localhost:11434"⟩, none, none⟩, none⟩⟩
      ⟨"s1", some "a.wav", none, none⟩
      ⟨.ok "hello", .error "down", .ok ()⟩).2.2.db_create.map
        fun r => r.text) = some "hello" :=
  formatting_failure_falls_back_to_raw _ _ _ ⟨true, some "m", none⟩
    "m" "http://localhost:11434" "hello" "down"
    rfl rfl rfl rfl rfl (by decide) rfl rfl

/-- Claim C5: whenever the raw text is empty, or no formatter config /
model id is present, or the formatter is disabled, or no Ollama endpoint is
configured, `finalize_session` never invokes the formatter and uses the raw
text as the final text: the persisted record carries the raw text and, when
persistence succeeds, the call returns the raw text. -/
theorem formatting_skipped_conditions (st : AppState)
    (options : FinalizeSessionOptions) (env : FinalizeEnv) (raw : String)
    (hraw : rawTranscription options env = .ok raw)
    (hskip : raw = "" ∨ st.settings.formatter_config = none ∨
      (∃ fc, st.settings.formatter_config = some fc ∧
        (fc.enabled = false ∨ fc.model_id = none)) ∨
      ollamaUrl st.settings = none) :
    (finalize_session st options env).2.2.formatter_invoked = false ∧
    ((finalize_session st options env).2.2.db_create.map fun r => r.text) =
      some raw ∧
    (env.persistOutcome = .ok () →
      (finalize_session st options env).2.1 = .ok raw) := by
  have hchoose := chooseFinalText_skip st.settings.formatter_config
    (ollamaUrl st.settings) env.formatOutcome raw hskip
  rcases hper : env.persistOutcome with e | u
  · rw [finalize_session_persist_error st options env raw e hraw hper]
    simp [hchoose, finalizeRecord, hper]
  · cases u
    rw [finalize_session_ok st options env raw hraw hper]
    simp [hchoose, finalizeRecord]

/-- Witness for claim C5 at a concrete store whose formatter config is
present but disabled. -/
theorem formatting_skipped_conditions_witness :
    (finalize_session
      ⟨.processing, some "s2",
        ⟨some ⟨false, some "m", none⟩,
         some ⟨some ⟨"http://localhost:11434"⟩, none, none⟩, none⟩⟩
      ⟨"s2", some "b.wav", none, none⟩
      ⟨.ok "hi", .ok "Hi.", .ok ()⟩).2.2.formatter_invoked = false ∧
    ((finalize_session
      ⟨.processing, some "s2",
        ⟨some ⟨false, some "m", none⟩,
         some ⟨some ⟨"http://localhost:11434"⟩, none, none⟩, none⟩⟩
      ⟨"s2", some "b.wav", none, none⟩
      ⟨.ok "hi", .ok "Hi.", .ok ()⟩).2.2.db_create.map fun r => r.text) =
      some "hi" ∧
    ((⟨.ok "hi", .ok "Hi.", .ok ()⟩ : FinalizeEnv).persistOutcome = .ok () →
      (finalize_session
        ⟨.processing, some "s2",
          ⟨some ⟨false, some "m", none⟩,
           some ⟨some ⟨"http://localhost:11434"⟩, none, none⟩, none⟩⟩
        ⟨"s2", some "b.wav", none, none⟩
        ⟨.ok "hi", .ok "Hi.", .ok ()⟩).2.1 = .ok "hi") :=
  formatting_skipped_conditions _ _ _ "hi" rfl
    (Or.inr (Or.inr (Or.inl ⟨⟨false, some "m", none⟩, rfl, Or.inl rfl⟩)))

/-- Claim C8, counterexample: the terminal transition of
`finalize_session` is not conditional on the session id matching — with an
active id "s2" different from the passed id "s1", the store is still reset
to Idle with a cleared id. -/
theorem finalize_unconditional_reset_cex :
    ("s1" ≠ "s2") ∧
    (finalize_session ⟨.recording, some "s2", ⟨none, none, none⟩⟩
      ⟨"s1", some "b.wav", none, none⟩
      ⟨.ok "hello", .ok "Hello.", .ok ()⟩).1 =
      ⟨.idle, none, ⟨none, none, none⟩⟩ :=
  ⟨by decide, rfl⟩

/-- Claim C8 (amended): the terminal transition of `finalize_session` is
unconditional — whenever the pipeline reaches it (speech and persistence
succeeded), the store is set to Idle with a cleared session id for every
store, including stores whose active session id differs from the one
passed in, so an in-flight finalize can clobber a session cancelled or
replaced while the pipeline ran. -/
theorem finalize_reset_unconditional_amended (st : AppState)
    (options : FinalizeSessionOptions) (env : FinalizeEnv) (raw : String)
    (hraw : rawTranscription options env = .ok raw)
    (hper : env.persistOutcome = .ok ()) :
    (finalize_session st options env).1.recording_state = .idle ∧
    (finalize_session st options env).1.active_session_id = none := by
  rw [finalize_session_ok st options env raw hraw hper]
  exact ⟨rfl, rfl⟩

/-- Witness for the amended claim C8 at a concrete store whose active id
"s4" differs from the finalized id "s3". -/
theorem finalize_reset_unconditional_amended_witness :
    (finalize_session ⟨.recording, some "s4", ⟨none, none, none⟩⟩
      ⟨"s3", none, none, none⟩
      ⟨.ok "x", .ok "y", .ok ()⟩).1.recording_state = .idle ∧
    (finalize_session ⟨.recording, some "s4", ⟨none, none, none⟩⟩
      ⟨"s3", none, none, none⟩
      ⟨.ok "x", .ok "y", .ok ()⟩).1.active_session_id = none :=
  finalize_reset_unconditional_amended _ _ _ "" rfl rfl

/-- Claim C9: when `create_transcription` fails during `finalize_session`
called in Processing, the call returns that error, the store is unchanged
(still Processing, session id retained), and no event is emitted. -/
theorem persist_failure_leaves_store_unchanged (st : AppState)
    (options : FinalizeSessionOptions) (env : FinalizeEnv) (raw e : String)
    (_hst : st.recording_state = .processing)
    (hraw : rawTranscription options env = .ok raw)
    (hper : env.persistOutcome = .error e) :
    (finalize_session st options env).1 = st ∧
    (finalize_session st options env).2.1 = .error e ∧
    (finalize_session st options env).2.2.events = [] := by
  rw [finalize_session_persist_error st options env raw e hraw hper]
  exact ⟨rfl, rfl, rfl⟩

/-- Witness for claim C9 at a concrete Processing store with a failing
persistence gateway. -/
theorem persist_failure_leaves_store_unchanged_witness :
    (finalize_session ⟨.processing, some "s5", ⟨none, none, none⟩⟩
      ⟨"s5", some "c.wav", none, none⟩
      ⟨.ok "hola", .ok "hola.", .error "db full"⟩).1 =
      ⟨.processing, some "s5", ⟨none, none, none⟩⟩ ∧
    (finalize_session ⟨.processing, some "s5", ⟨none, none, none⟩⟩
      ⟨"s5", some "c.wav", none, none⟩
      ⟨.ok "hola", .ok "hola.", .error "db full"⟩).2.1 = .error "db full" ∧
    (finalize_session ⟨.processing, some "s5", ⟨none, none, none⟩⟩
      ⟨"s5", some "c.wav", none, none⟩
      ⟨.ok "hola", .ok "hola.", .error "db full"⟩).2.2.events = [] :=
  persist_failure_leaves_store_unchanged _ _ _ "hola" "db full" rfl rfl rfl

/-- Claim C10: `finalize_session` checks no precondition on the store — for
every store (any state, any active id) and any passed session id, when the
speech step and persistence succeed it returns the final text and resets
the store to Idle with a cleared id; and every error it can return is the
speech-engine error or the persistence error, never a state-conflict
error. -/
theorem finalize_no_precondition (st : AppState)
    (options : FinalizeSessionOptions) (env : FinalizeEnv) :
    (∀ raw, rawTranscription options env = .ok raw →
      env.persistOutcome = .ok () →
      (finalize_session st options env).2.1 =
        .ok (chooseFinalText st.settings.formatter_config
          (ollamaUrl st.settings) env.formatOutcome raw).1 ∧
      (finalize_session st options env).1.recording_state = .idle ∧
      (finalize_session st options env).1.active_session_id = none) ∧
    (∀ e, (finalize_session st options env).2.1 = .error e →
      rawTranscription options env = .error e ∨
      env.persistOutcome = .error e) := by
  constructor
  · intro raw hraw hper
    rw [finalize_session_ok st options env raw hraw hper]
    exact ⟨rfl, rfl, rfl⟩
  · intro e he
    rcases hraw : rawTranscription options env with e' | raw
    · rw [finalize_session_speech_error st options env e' hraw] at he
      simp only [Except.error.injEq] at he
      subst he
      exact Or.inl rfl
    · rcases hper : env.persistOutcome with e2 | u
      · rw [finalize_session_persist_error st options env raw e2 hraw hper] at he
        simp only [Except.error.injEq] at he
        subst he
        exact Or.inr rfl
      · cases u
        rw [finalize_session_ok st options env raw hraw hper] at he
        simp at he

/-- Witness for claim C10: finalize from an Idle store with an id that was
never active still succeeds and leaves the store Idle. -/
theorem finalize_no_precondition_witness :
    (finalize_session ⟨.idle, none, ⟨none, none, none⟩⟩
      ⟨"zz", none, none, none⟩
      ⟨.error "unused", .ok "f", .ok ()⟩).2.1 = .ok "" ∧
    (finalize_session ⟨.idle, none, ⟨none, none, none⟩⟩
      ⟨"zz", none, none, none⟩
      ⟨.error "unused", .ok "f", .ok ()⟩).1.recording_state = .idle ∧
    (finalize_session ⟨.idle, none, ⟨none, none, none⟩⟩
      ⟨"zz", none, none, none⟩
      ⟨.error "unused", .ok "f", .ok ()⟩).1.active_session_id = none :=
  (finalize_no_precondition ⟨.idle, none, ⟨none, none, none⟩⟩
    ⟨"zz", none, none, none⟩
    ⟨.error "unused", .ok "f", .ok ()⟩).1 "" rfl rfl

end Kotoba
